import Mathlib

/-!
Shallow embedding of the ledger and credential core of a custodial wallet
backend (FastAPI + SQLAlchemy source), together with proofs about its
transfer protocol, deposit reconciliation and API-key lifecycle.

Modelling conventions:
- Currency amounts are Python floats in the source.  They are modelled as
  exact rationals here; the IEEE-754 double rounding of the source is
  modelled explicitly in the FloatModel section, which is used by the one
  claim that is about rounding (the kobo/naira conversion round trip).
- A SQLAlchemy session is modelled as a pair of database snapshots: the
  committed state and the current in-session state.  Attribute assignment on
  a mapped object mutates the current state only; commit copies current over
  committed; rollback (explicit, or implicit when the request-scoped session
  closes after an exception) copies committed over current.  The session is
  created with autoflush disabled, but in every flow modelled here each read
  happens while current and committed agree on the queried predicate, so
  reads are taken from the current state.
- datetime.utcnow() is modelled as an integer timestamp (seconds) passed in
  as a parameter named now.
- Randomly generated values (uuid primary keys, secret key material) are
  modelled as explicit input parameters.
- Python raises TypeError when a call passes a keyword argument that is not
  a parameter of the callee.  The keyword lists of the relevant call sites
  are embedded verbatim so that this behaviour is part of the model rather
  than an assumption.
-/

/-! ## Data model (app/models) -/

inductive TransactionType where
  | deposit
  | transfer
  | withdrawal
deriving Repr, DecidableEq

inductive TransactionStatus where
  | pending
  | success
  | failed
deriving Repr, DecidableEq

/-- A row of the wallets table. -/
structure Wallet where
  id : String
  user_id : String
  wallet_number : String
  balance : Rat
  is_active : Bool
deriving Repr, DecidableEq

/-- A row of the transactions table. -/
structure Transaction where
  id : String
  user_id : String
  wallet_id : String
  type : TransactionType
  status : TransactionStatus
  amount : Rat
  reference : Option String
  recipient_wallet_number : Option String
  description : Option String
deriving Repr, DecidableEq

/-- A row of the api_keys table.  The source column key_prefix is named
key_pfx here.  last_used_at is an optional timestamp. -/
structure APIKey where
  id : String
  user_id : String
  name : String
  key_pfx : String
  key_hash : String
  permissions : List String
  expires_at : Int
  is_active : Bool
  is_revoked : Bool
  last_used_at : Option Int
deriving Repr, DecidableEq

/-- The persistent store: the three tables the verified claims touch. -/
structure DB where
  wallets : List Wallet
  transactions : List Transaction
  api_keys : List APIKey
deriving Repr, DecidableEq

/-- A SQLAlchemy session: committed database state plus the in-session
working state holding uncommitted attribute mutations. -/
structure Session where
  committed : DB
  current : DB
deriving Repr, DecidableEq

/-- A freshly opened (clean) session on a database. -/
def Session.ofDB (db : DB) : Session := ⟨db, db⟩

/-- db.commit(): pending changes become durable. -/
def Session.commit (s : Session) : Session := ⟨s.current, s.current⟩

/-- db.rollback(), or the implicit rollback when the request-scoped session
closes after an uncaught exception: pending changes are discarded. -/
def Session.rollback (s : Session) : Session := ⟨s.committed, s.committed⟩

/-- Assign the balance attribute of the wallet row with the given id. -/
def DB.setWalletBalance (db : DB) (wid : String) (b : Rat) : DB :=
  { db with wallets := db.wallets.map fun w => if w.id == wid then { w with balance := b } else w }

/-- Mutate attributes of the transaction row with the given id. -/
def DB.updateTxn (db : DB) (tid : String) (f : Transaction → Transaction) : DB :=
  { db with transactions := db.transactions.map fun t => if t.id == tid then f t else t }

/-- Mutate attributes of the api_keys row with the given id. -/
def DB.updateKey (db : DB) (kid : String) (f : APIKey → APIKey) : DB :=
  { db with api_keys := db.api_keys.map fun k => if k.id == kid then f k else k }

/-! ## WalletService queries (app/services/wallet_service.py) -/

/-- WalletService.get_wallet_by_user_id. -/
def get_wallet_by_user_id (db : DB) (user_id : String) : Option Wallet :=
  db.wallets.find? fun w => w.user_id == user_id

/-- WalletService.get_wallet_by_wallet_number. -/
def get_wallet_by_wallet_number (db : DB) (wallet_number : String) : Option Wallet :=
  db.wallets.find? fun w => w.wallet_number == wallet_number

/-- WalletService.get_transaction_by_reference. -/
def get_transaction_by_reference (db : DB) (reference : String) : Option Transaction :=
  db.transactions.find? fun t => t.reference == some reference

inductive UpdateBalanceError where
  | insufficientBalance
  | invalidOperation (op : String)
deriving Repr, DecidableEq

/-- WalletService.update_balance: add or subtract an amount on a wallet row
and commit.  A subtract below the balance raises (HTTP 400) before any
mutation; an unknown operation raises ValueError. -/
def update_balance (s : Session) (wallet : Wallet) (amount : Rat) (operation : String) :
    Except UpdateBalanceError Wallet × Session :=
  if operation = "add" then
    let w := { wallet with balance := wallet.balance + amount }
    (.ok w, ({ s with current := s.current.setWalletBalance wallet.id w.balance }).commit)
  else if operation = "subtract" then
    if wallet.balance < amount then
      (.error .insufficientBalance, s)
    else
      let w := { wallet with balance := wallet.balance - amount }
      (.ok w, ({ s with current := s.current.setWalletBalance wallet.id w.balance }).commit)
  else
    (.error (.invalidOperation operation), s)

/-- Deterministic stand-in for the uuid4 primary key of a new transaction
row. -/
def freshTxnId (db : DB) : String :=
  "txn-row-" ++ toString db.transactions.length

/-- WalletService.create_transaction: insert a transaction row and commit. -/
def create_transaction (s : Session) (user_id wallet_id : String)
    (transaction_type : TransactionType) (amount : Rat)
    (transaction_status : TransactionStatus) (reference : Option String)
    (rcpt_wallet_number : Option String) (description : Option String) :
    Transaction × Session :=
  let t : Transaction :=
    { id := freshTxnId s.current
      user_id := user_id
      wallet_id := wallet_id
      type := transaction_type
      status := transaction_status
      amount := amount
      reference := reference
      recipient_wallet_number := rcpt_wallet_number
      description := description }
  (t, ({ s with current := { s.current with transactions := s.current.transactions ++ [t] } }).commit)

/-! ## The transfer protocol (WalletService.transfer_funds)

The source builds the sender-leg transaction record with the call

  WalletService.create_transaction(db=..., user_id=..., wallet_id=...,
      transaction_type=..., amount=..., status=...,
      recipient_wallet_number=..., description=...)

but create_transaction has no parameter named status (the parameter is
transaction_status; the recipient-leg call spells it correctly).  CPython
therefore raises TypeError at that call, before the function body runs.  The
keyword lists of both call sites and the parameter list of the callee are
embedded below so the TypeError is derived, not assumed. -/

/-- The parameter names of WalletService.create_transaction. -/
def create_transaction_params : List String :=
  ["db", "user_id", "wallet_id", "transaction_type", "amount",
   "transaction_status", "reference", "recipient_wallet_number", "description"]

/-- The keyword names used at the sender-leg call site inside
transfer_funds. -/
def transfer_sender_leg_keywords : List String :=
  ["db", "user_id", "wallet_id", "transaction_type", "amount",
   "status", "recipient_wallet_number", "description"]

/-- The keyword names used at the recipient-leg call site inside
transfer_funds. -/
def transfer_recipient_leg_keywords : List String :=
  ["db", "user_id", "wallet_id", "transaction_type", "amount",
   "transaction_status", "description"]

/-- The keywords of a call that the callee does not accept; CPython raises
TypeError when this list is nonempty. -/
def unexpected_keyword_args (call params : List String) : List String :=
  call.filter fun k => !(params.contains k)

inductive TransferError where
  | senderWalletNotFound
  | recipientWalletNotFound
  | selfTransfer
  | senderWalletInactive
  | recipientWalletInactive
  | insufficientBalance
  | internalError (detail : String)
deriving Repr, DecidableEq

/-- WalletService.transfer_funds.  Validation failures raise before any
mutation.  Inside the try block both balances are mutated on the session,
then the sender-leg create_transaction call is made; because that call uses
the keyword status, TypeError is raised there, the blanket handler rolls the
session back and re-raises as an HTTP 500 internal error.  The branch that
the programmer intended (taken only if the call site had no unexpected
keyword) is embedded for reference but is unreachable in the source as
written. -/
def transfer_funds (s : Session) (sender_id : String) (rcpt_wallet_number : String)
    (amount : Rat) : Except TransferError (Wallet × Wallet) × Session :=
  match get_wallet_by_user_id s.current sender_id with
  | none => (.error .senderWalletNotFound, s)
  | some sender_wallet =>
    match get_wallet_by_wallet_number s.current rcpt_wallet_number with
    | none => (.error .recipientWalletNotFound, s)
    | some recipient_wallet =>
      if sender_wallet.id = recipient_wallet.id then
        (.error .selfTransfer, s)
      else if sender_wallet.is_active = false then
        (.error .senderWalletInactive, s)
      else if recipient_wallet.is_active = false then
        (.error .recipientWalletInactive, s)
      else if sender_wallet.balance < amount then
        (.error .insufficientBalance, s)
      else
        let sw := { sender_wallet with balance := sender_wallet.balance - amount }
        let rw := { recipient_wallet with balance := recipient_wallet.balance + amount }
        let s1 := { s with current := s.current.setWalletBalance sender_wallet.id sw.balance }
        let s2 := { s1 with current := s1.current.setWalletBalance recipient_wallet.id rw.balance }
        if (unexpected_keyword_args transfer_sender_leg_keywords create_transaction_params).isEmpty then
          let (_, s3) := create_transaction s2 sender_id sender_wallet.id .transfer amount
            .success none (some rcpt_wallet_number)
            (some ("Transfer to wallet " ++ rcpt_wallet_number))
          let (_, s4) := create_transaction s3 recipient_wallet.user_id recipient_wallet.id
            .deposit amount .success none none
            (some ("Transfer from wallet " ++ sender_wallet.wallet_number))
          (.ok (sw, rw), s4.commit)
        else
          (.error (.internalError
            "Transfer failed: create_transaction() got an unexpected keyword argument status"),
           s2.rollback)

/-! ## PaystackService conversions (app/services/paystack_service.py)

kobo_to_naira divides by 100.0 and naira_to_kobo multiplies by 100 and
truncates with int().  For the reconciliation flows below the division is
modelled exactly over the rationals; the IEEE-754 double rounding the
source actually performs is modelled in the FloatModel section. -/

/-- Exact-rational model of PaystackService.kobo_to_naira. -/
def kobo_to_naira (amount_in_kob : Int) : Rat :=
  (amount_in_kob : Rat) / 100

/-! ## Deposit reconciliation, processor-initiated path
(paystack_webhook in app/api/wallet.py)

Signature verification is over an external shared secret, so its outcome is
an input to the model.  The payload is the parsed JSON body: the event name
and the data object with reference, amount (kobo, defaulting to 0 when
absent) and the processor status string. -/

structure WebhookData where
  reference : Option String
  amount : Int
  status : Option String
deriving Repr, DecidableEq

structure WebhookPayload where
  event : Option String
  data : WebhookData
deriving Repr, DecidableEq

inductive WebhookResult where
  | invalidSignature
  | eventIgnored (event : Option String)
  | missingReference
  | transactionNotFound
  | alreadyProcessed
  | amountMismatch
  | walletNotFound
  | walletCredited (amount : Rat)
  | transactionFailed
deriving Repr, DecidableEq

/-- paystack_webhook: verify signature, ignore events other than
charge.success, then reconcile the referenced transaction: idempotency
check against SUCCESS, amount-match check (mark FAILED and commit on
mismatch), then credit-and-flip on processor success or mark FAILED on
processor failure.  Python treats both a missing and an empty reference
string as falsy. -/
def paystack_webhook (s : Session) (signature_valid : Bool) (p : WebhookPayload) :
    WebhookResult × Session :=
  if signature_valid = false then
    (.invalidSignature, s)
  else if p.event ≠ some "charge.success" then
    (.eventIgnored p.event, s)
  else
    match p.data.reference with
    | none => (.missingReference, s)
    | some reference =>
      if reference = "" then
        (.missingReference, s)
      else
        let amount := kobo_to_naira p.data.amount
        match get_transaction_by_reference s.current reference with
        | none => (.transactionNotFound, s)
        | some transaction =>
          if transaction.status = TransactionStatus.success then
            (.alreadyProcessed, s)
          else if transaction.amount ≠ amount then
            let s1 := { s with current := s.current.updateTxn transaction.id fun t =>
              { t with status := .failed
                       description := some ("Amount mismatch: expected " ++
                         toString transaction.amount ++ ", got " ++ toString amount) } }
            (.amountMismatch, s1.commit)
          else if p.data.status = some "success" then
            match get_wallet_by_user_id s.current transaction.user_id with
            | none => (.walletNotFound, s)
            | some wallet =>
              let s1 := (update_balance s wallet amount "add").2
              let s2 := { s1 with current := s1.current.updateTxn transaction.id fun t =>
                { t with status := .success } }
              (.walletCredited amount, s2.commit)
          else
            let s1 := { s with current := s.current.updateTxn transaction.id fun t =>
              { t with status := .failed } }
            (.transactionFailed, s1.commit)

/-! ## Deposit reconciliation, user-initiated path
(paystack_callback in app/api/wallet.py)

The synchronous verification against the processor crosses the network, so
its result is an input: none models PaystackService.verify_transaction
raising (caught by the handler, which renders a verification-error page
without touching state). -/

structure VerifyData where
  status : Option String
  amount : Int
deriving Repr, DecidableEq

inductive CallbackResult where
  | transactionNotFoundPage
  | alreadySuccessPage
  | amountMismatchPage
  | creditedPage
  | walletNotFoundPage
  | paymentFailedPage
  | verificationErrorPage
deriving Repr, DecidableEq

/-- paystack_callback: look up the transaction, return early when it is
already SUCCESS, otherwise verify with the processor and apply the same
amount-match and credit-on-success logic as the webhook, rendering an HTML
page for each outcome. -/
def paystack_callback (s : Session) (reference : String) (verify : Option VerifyData) :
    CallbackResult × Session :=
  match get_transaction_by_reference s.current reference with
  | none => (.transactionNotFoundPage, s)
  | some transaction =>
    if transaction.status = TransactionStatus.success then
      (.alreadySuccessPage, s)
    else
      match verify with
      | none => (.verificationErrorPage, s)
      | some v =>
        let amount := kobo_to_naira v.amount
        if transaction.amount ≠ amount then
          let s1 := { s with current := s.current.updateTxn transaction.id fun t =>
            { t with status := .failed
                     description := some ("Amount mismatch: expected " ++
                       toString transaction.amount ++ ", got " ++ toString amount) } }
          (.amountMismatchPage, s1.commit)
        else if v.status = some "success" then
          match get_wallet_by_user_id s.current transaction.user_id with
          | some wallet =>
            let s1 := (update_balance s wallet amount "add").2
            let s2 := { s1 with current := s1.current.updateTxn transaction.id fun t =>
              { t with status := .success } }
            (.creditedPage, s2)
          | none => (.walletNotFoundPage, s)
        else
          let s1 := { s with current := s.current.updateTxn transaction.id fun t =>
            { t with status := .failed } }
          (.paymentFailedPage, s1.commit)

/-! ## Manual status check (check_deposit_status in app/api/wallet.py) -/

inductive DepositStatusResult where
  | transactionNotFound
  | forbidden
  | statusReport (reference : Option String) (tstatus : TransactionStatus) (amount : Rat)
deriving Repr, DecidableEq

/-- check_deposit_status: look up by reference, reject with 403 when the
transaction does not belong to the requesting user, otherwise report the
stored reference, status and amount.  No branch mutates the session. -/
def check_deposit_status (s : Session) (reference : String) (user_id : String) :
    DepositStatusResult × Session :=
  match get_transaction_by_reference s.current reference with
  | none => (.transactionNotFound, s)
  | some transaction =>
    if transaction.user_id ≠ user_id then
      (.forbidden, s)
    else
      (.statusReport transaction.reference transaction.status transaction.amount, s)

/-! ## Credential store (app/services/api_key_service.py, app/models/api_key.py,
app/schemas/api_key.py) -/

/-- APIKey.hash_api_key is a SHA-256 digest.  It is modelled as an abstract
injective tag: no verified claim depends on the numeric value of the
digest, only on equality of hashes of equal inputs. -/
def hash_api_key (api_key : String) : String :=
  "sha256:" ++ api_key

/-- The whitespace characters Python str.strip removes. -/
def isPySpace (c : Char) : Bool :=
  c = ' ' || c = '\t' || c = '\n' || c = '\x0d' || c = '\x0b' || c = '\x0c'

/-- Python str.strip(), over the character list of the string.  Character
lists are used throughout instead of the opaque core String functions so
that every operation reduces during kernel evaluation. -/
def pyStrip (l : List Char) : List Char :=
  ((l.dropWhile isPySpace).reverse.dropWhile isPySpace).reverse

/-- Python int(str) over a character list: optional surrounding whitespace,
an optional sign, then decimal digits.  (Digit-group underscores are not
modelled; no input under verification contains them.) -/
def parseIntChars (l : List Char) : Option Int :=
  match pyStrip l with
  | [] => none
  | c :: rest =>
    let core := if c = '-' || c = '+' then rest else c :: rest
    if core.isEmpty then none
    else if core.all Char.isDigit then
      let n : Nat := core.foldl (fun acc ch => acc * 10 + (ch.toNat - 48)) 0
      if c = '-' then some (-(n : Int)) else some (n : Int)
    else none

/-- Python int(str). -/
def parseIntPy (s : String) : Option Int :=
  parseIntChars s.data

inductive ExpiryError where
  | invalidFormat
  | invalidValue
  | invalidUnit
deriving Repr, DecidableEq

/-- APIKey.parse_expiry: uppercase and strip the spec, require at least two
characters, split into magnitude and unit letter, and add the corresponding
timedelta (hours, days, 30-day months, 365-day years) to the current time.
Time is in seconds. -/
def parse_expiry (now : Int) (expiry_str : String) : Except ExpiryError Int :=
  let s := pyStrip (expiry_str.data.map Char.toUpper)
  if s.length < 2 then .error .invalidFormat
  else
    match parseIntChars s.dropLast with
    | none => .error .invalidValue
    | some value =>
      match s.getLast? with
      | none => .error .invalidFormat
      | some unit =>
        if unit = 'H' then .ok (now + 3600 * value)
        else if unit = 'D' then .ok (now + 86400 * value)
        else if unit = 'M' then .ok (now + 86400 * (value * 30))
        else if unit = 'Y' then .ok (now + 86400 * (value * 365))
        else .error .invalidUnit

/-- The expiry validator of APIKeyCreateRequest and APIKeyRolloverRequest
(app/schemas/api_key.py): checks only the shape (length, unit letter,
integer magnitude), not the sign of the magnitude. -/
def validate_expiry (v : String) : Except String String :=
  let w := pyStrip (v.data.map Char.toUpper)
  if w.length < 2 then .error "Invalid expiry format"
  else
    match w.getLast? with
    | none => .error "Invalid expiry format"
    | some unit =>
      if !(unit = 'H' || unit = 'D' || unit = 'M' || unit = 'Y') then
        .error "Expiry unit must be H (hour), D (day), M (month), or Y (year)"
      else
        match parseIntChars w.dropLast with
        | none => .error "Expiry value must be a number"
        | some _ => .ok (String.mk w)

/-- APIKeyService.get_active_key_count: keys of the user that are not
revoked and whose expiry is strictly in the future. -/
def get_active_key_count (db : DB) (user_id : String) (now : Int) : Nat :=
  (db.api_keys.filter fun k =>
    k.user_id == user_id && k.is_revoked == false && decide (now < k.expires_at)).length

/-- APIKeyService.get_api_key_by_id, scoped to the owning user. -/
def get_api_key_by_id (db : DB) (key_id user_id : String) : Option APIKey :=
  db.api_keys.find? fun k => k.id == key_id && k.user_id == user_id

inductive APIKeyError where
  | keyLimitReached
  | invalidExpiry (e : ExpiryError)
deriving Repr, DecidableEq

/-- APIKeyService.create_api_key: reject when the active-key count is
already at 5, parse the expiry (reject a malformed spec), then insert the
key row (storing the hash and the 8-character display fragment of the
secret) and commit.  plain_key models the randomly generated secret and
new_id the uuid primary key. -/
def create_api_key (s : Session) (now : Int) (user_id name : String)
    (permissions : List String) (expiry : String) (plain_key new_id : String) :
    Except APIKeyError (APIKey × String) × Session :=
  let active_count := get_active_key_count s.current user_id now
  if active_count ≥ 5 then
    (.error .keyLimitReached, s)
  else
    match parse_expiry now expiry with
    | .error e => (.error (.invalidExpiry e), s)
    | .ok expires_at =>
      let api_key : APIKey :=
        { id := new_id
          user_id := user_id
          name := name
          key_pfx := String.mk (plain_key.data.take 8)
          key_hash := hash_api_key plain_key
          permissions := permissions
          expires_at := expires_at
          is_active := true
          is_revoked := false
          last_used_at := none }
      let s1 := ({ s with current :=
        { s.current with api_keys := s.current.api_keys ++ [api_key] } }).commit
      (.ok (api_key, plain_key), s1)

/-- APIKeyService.verify_api_key: hash the presented secret, look the row up
by hash, reject revoked, inactive or expired keys, and on success stamp
last_used_at and commit.  is_expired is utcnow() > expires_at. -/
def verify_api_key (s : Session) (now : Int) (api_key : String) :
    Option APIKey × Session :=
  let key_hash := hash_api_key api_key
  match s.current.api_keys.find? (fun k => k.key_hash == key_hash) with
  | none => (none, s)
  | some db_key =>
    if db_key.is_revoked = true ∨ db_key.is_active = false then (none, s)
    else if now > db_key.expires_at then (none, s)
    else
      let s1 := ({ s with current := s.current.updateKey db_key.id fun k =>
        { k with last_used_at := some now } }).commit
      (some { db_key with last_used_at := some now }, s1)

/-- The attribute assignments rollover_api_key performs on the old key. -/
def revoke_flags (k : APIKey) : APIKey :=
  { k with is_revoked := true, is_active := false }

/-- APIKeyService.revoke_api_key: set is_revoked and clear is_active on the
owned key, commit; report False when the key is absent or not owned. -/
def revoke_api_key (s : Session) (key_id user_id : String) : Bool × Session :=
  match get_api_key_by_id s.current key_id user_id with
  | none => (false, s)
  | some _ =>
    (true, ({ s with current := s.current.updateKey key_id revoke_flags }).commit)

inductive RolloverError where
  | keyNotFound
  | keyNotExpired
  | createFailed (e : APIKeyError)
deriving Repr, DecidableEq

/-- APIKeyService.rollover_api_key: find the owned key, reject when it has
not yet expired, mark it revoked on the session (uncommitted), then call
create_api_key with the old key name and permission list.  The commit
inside create_api_key persists the revocation and the new row together; if
create_api_key raises instead, the exception propagates and the
request-scoped session closes, discarding the uncommitted revocation. -/
def rollover_api_key (s : Session) (now : Int) (user_id expired_key_id : String)
    (new_expiry : String) (plain_key new_id : String) :
    Except RolloverError (APIKey × String) × Session :=
  match get_api_key_by_id s.current expired_key_id user_id with
  | none => (.error .keyNotFound, s)
  | some old_key =>
    if ¬ (now > old_key.expires_at) then
      (.error .keyNotExpired, s)
    else
      let s1 := { s with current := s.current.updateKey old_key.id revoke_flags }
      match create_api_key s1 now user_id old_key.name old_key.permissions
          new_expiry plain_key new_id with
      | (.error e, s2) => (.error (.createFailed e), s2.rollback)
      | (.ok (new_key, pk), s2) => (.ok (new_key, pk), s2.commit)

/-! ## IEEE-754 model of the amount conversions

The source stores amounts as Python floats (IEEE-754 binary64) and converts
naira to kobo with int(amount * 100) and back with amount / 100.0.  This
section models binary64 rounding exactly.  Exact fractions are represented
by an unnormalized numerator/denominator pair of integers (the denominator
kept positive), so that every operation reduces in the kernel and concrete
facts can be settled by decide. -/

namespace FloatModel

/-- An exact fraction num / den with den > 0, not kept in lowest terms. -/
structure Q where
  num : Int
  den : Int
deriving Repr, DecidableEq

/-- Equality of the represented rational values. -/
def Q.eqv (a b : Q) : Prop :=
  a.num * b.den = b.num * a.den

instance (a b : Q) : Decidable (a.eqv b) := by
  unfold Q.eqv
  infer_instance

/-- Value comparison, for positive denominators. -/
def Q.le (a b : Q) : Prop :=
  a.num * b.den ≤ b.num * a.den

instance (a b : Q) : Decidable (a.le b) := by
  unfold Q.le
  infer_instance

/-- Strict value comparison, for positive denominators. -/
def Q.lt (a b : Q) : Prop :=
  a.num * b.den < b.num * a.den

instance (a b : Q) : Decidable (a.lt b) := by
  unfold Q.lt
  infer_instance

def Q.mul (a b : Q) : Q :=
  ⟨a.num * b.num, a.den * b.den⟩

def Q.sub (a b : Q) : Q :=
  ⟨a.num * b.den - b.num * a.den, a.den * b.den⟩

/-- Floor of the represented value (denominator positive). -/
def Q.floor (a : Q) : Int :=
  a.num.ediv a.den

/-- Floor of the base-two logarithm of a natural number, written with
bounded structural recursion so that kernel evaluation can reduce it; 64
steps cover every operand below 2 ^ 64. -/
def natLog2Aux : Nat → Nat → Nat
  | 0, _ => 0
  | fuel + 1, n => if n ≥ 2 then natLog2Aux fuel (n / 2) + 1 else 0

def natLog2 (n : Nat) : Nat :=
  natLog2Aux 64 n

/-- Two to an integer power, as an exact fraction. -/
def pow2 (g : Int) : Q :=
  match g with
  | .ofNat n => ⟨((2 ^ n : Nat) : Int), 1⟩
  | .negSucc n => ⟨1, ((2 ^ (n + 1) : Nat) : Int)⟩

/-- The exponent e with 2 ^ e ≤ q < 2 ^ (e + 1), for positive q.  The
first guess from the numerator and denominator logarithms is at most one
too high and is corrected by a comparison. -/
def floorLog2 (q : Q) : Int :=
  let a : Int := natLog2 q.num.toNat
  let b : Int := natLog2 q.den.toNat
  let g : Int := a - b
  if (pow2 g).le q then g else g - 1

/-- Round a positive fraction to the nearest IEEE-754 binary64 value
(round to nearest, ties to even), returned as the exact fraction it
denotes.  Zero and negative inputs return 0; overflow and subnormal
behaviour are outside the range used here. -/
def roundDouble (q : Q) : Q :=
  if q.num ≤ 0 then ⟨0, 1⟩
  else
    let e := floorLog2 q
    let scale := (52 : Int) - e
    let sc : Q := q.mul (pow2 scale)
    let f : Int := sc.floor
    let r : Q := sc.sub ⟨f, 1⟩
    let m : Int :=
      if r.lt ⟨1, 2⟩ then f
      else if Q.lt ⟨1, 2⟩ r then f + 1
      else if f % 2 = 0 then f else f + 1
    (Q.mul ⟨m, 1⟩ (pow2 (0 - scale)))

/-- Python int() on a float: truncation toward zero. -/
def pyInt (q : Q) : Int :=
  if q.num < 0 then -(Q.floor ⟨-q.num, q.den⟩) else q.floor

/-- PaystackService.naira_to_kobo on binary64: the product amount * 100 is
rounded to a double, then truncated by int(). -/
def naira_to_kobo (amount_in_naira : Q) : Int :=
  pyInt (roundDouble (amount_in_naira.mul ⟨100, 1⟩))

/-- PaystackService.kobo_to_naira on binary64: the quotient amount / 100.0
is rounded to a double. -/
def kobo_to_naira (amount_in_kob : Int) : Q :=
  roundDouble ⟨amount_in_kob, 100⟩

/-- The binary64 value obtained from the decimal literal 0.29: a ledger
amount with two decimal places, as the source stores it. -/
def double_0_29 : Q :=
  roundDouble ⟨29, 100⟩

end FloatModel

/-! ## Claims -/

/-- A two-wallet database on which every validation step of transfer_funds
passes: both wallets exist, are distinct and active, and the sender balance
covers the amount. -/
def c1_db : DB :=
  { wallets :=
      [ { id := "w-alice", user_id := "alice", wallet_number := "1111111111111",
          balance := 100, is_active := true },
        { id := "w-bob", user_id := "bob", wallet_number := "2222222222222",
          balance := 50, is_active := true } ],
    transactions := [],
    api_keys := [] }

/-- Claim C1: the spec says a fully valid transfer debits the sender,
credits the recipient, persists the two transaction records and returns
both wallets.  The source cannot do this: the sender-leg call into
create_transaction passes the keyword status, which create_transaction does
not accept, so CPython raises TypeError inside the try block; the handler
rolls back and every valid transfer surfaces as an internal error with the
committed state unchanged.  This theorem evaluates the embedded code on a
transfer on which every validation step passes. -/
theorem transfer_funds_valid_input_internal_error :
    transfer_funds (Session.ofDB c1_db) "alice" "2222222222222" 30 =
      (.error (.internalError
        "Transfer failed: create_transaction() got an unexpected keyword argument status"),
       Session.ofDB c1_db)
    ∧ unexpected_keyword_args transfer_sender_leg_keywords create_transaction_params
        = ["status"]
    ∧ unexpected_keyword_args transfer_recipient_leg_keywords create_transaction_params
        = [] := by
  refine ⟨?_, by decide, by decide⟩
  simp [transfer_funds, c1_db, Session.ofDB, Session.rollback, get_wallet_by_user_id,
    get_wallet_by_wallet_number, DB.setWalletBalance, unexpected_keyword_args,
    transfer_sender_leg_keywords, create_transaction_params]
  norm_num

/-- Claim C8: on binary64 floats, converting the two-decimal ledger amount
0.29 to kobo and back does not return 0.29: int(0.29 * 100) truncates
28.999999999999996 to 28, so the round trip lands on 0.28.  The last
conjunct pins the binary64 value of the 0.29 literal to the fraction
5224175567749775 / 2 ^ 54, matching the IEEE-754 nearest double. -/
theorem naira_kobo_roundtrip_fails_on_0_29 :
    FloatModel.naira_to_kobo FloatModel.double_0_29 = 28
    ∧ ¬ FloatModel.Q.eqv
        (FloatModel.kobo_to_naira (FloatModel.naira_to_kobo FloatModel.double_0_29))
        FloatModel.double_0_29
    ∧ FloatModel.Q.eqv FloatModel.double_0_29 ⟨5224175567749775, 18014398509481984⟩ := by
  decide

/-- Claim C9: check_deposit_status returns the session untouched on every
path, and reports forbidden whenever the transaction belongs to a user
other than the requester. -/
theorem check_deposit_status_readonly_and_forbidden (s : Session) (ref uid : String) :
    (check_deposit_status s ref uid).2 = s
    ∧ (∀ txn, get_transaction_by_reference s.current ref = some txn →
        txn.user_id ≠ uid → (check_deposit_status s ref uid).1 = .forbidden) := by
  constructor
  · cases h : get_transaction_by_reference s.current ref with
    | none => simp [check_deposit_status, h]
    | some txn =>
      simp only [check_deposit_status, h]
      split <;> rfl
  · intro txn htx hu
    simp [check_deposit_status, htx, hu]

def c9_txn : Transaction :=
  { id := "t-c9", user_id := "carol", wallet_id := "w-carol", type := .deposit,
    status := .pending, amount := 75, reference := some "ref-c9",
    recipient_wallet_number := none, description := some "Deposit via Paystack" }

def c9_db : DB :=
  { wallets := [], transactions := [c9_txn], api_keys := [] }

theorem check_deposit_status_readonly_witness :
    (check_deposit_status (Session.ofDB c9_db) "ref-c9" "mallory").2 = Session.ofDB c9_db
    ∧ (check_deposit_status (Session.ofDB c9_db) "ref-c9" "mallory").1
        = DepositStatusResult.forbidden := by
  have h := check_deposit_status_readonly_and_forbidden (Session.ofDB c9_db) "ref-c9" "mallory"
  exact ⟨h.1, h.2 c9_txn rfl (by decide)⟩

/-- Claim C4: once a deposit transaction is success, reconciling its
reference again is a pure no-op on both paths: the webhook reports already
processed and the callback renders the success page, and in both cases the
session is returned exactly as it came in. -/
theorem reconcile_success_idempotent (s : Session) (ref : String) (txn : Transaction)
    (k : Int) (ps : Option String) (v : Option VerifyData)
    (htx : get_transaction_by_reference s.current ref = some txn)
    (hst : txn.status = .success) (hne : ref ≠ "") :
    paystack_webhook s true
        { event := some "charge.success",
          data := { reference := some ref, amount := k, status := ps } }
      = (.alreadyProcessed, s)
    ∧ paystack_callback s ref v = (.alreadySuccessPage, s) := by
  constructor
  · simp [paystack_webhook, htx, hst, hne]
  · simp [paystack_callback, htx, hst]

def c4_txn : Transaction :=
  { id := "t-c4", user_id := "carol", wallet_id := "w-carol", type := .deposit,
    status := .success, amount := 5000, reference := some "ref-c4",
    recipient_wallet_number := none, description := some "Deposit via Paystack" }

def c4_db : DB :=
  { wallets :=
      [ { id := "w-carol", user_id := "carol", wallet_number := "3333333333333",
          balance := 5000, is_active := true } ],
    transactions := [c4_txn], api_keys := [] }

theorem reconcile_success_idempotent_witness :
    paystack_webhook (Session.ofDB c4_db) true
        { event := some "charge.success",
          data := { reference := some "ref-c4", amount := 500000, status := some "success" } }
      = (.alreadyProcessed, Session.ofDB c4_db)
    ∧ paystack_callback (Session.ofDB c4_db) "ref-c4"
        (some { status := some "success", amount := 500000 })
      = (.alreadySuccessPage, Session.ofDB c4_db) :=
  reconcile_success_idempotent (Session.ofDB c4_db) "ref-c4" c4_txn 500000
    (some "success") (some { status := some "success", amount := 500000 })
    rfl rfl (by decide)

/-- Claim C5: when the converted processor amount differs from the recorded
amount, both reconciliation paths mark the transaction failed with a
descriptive reason and report the mismatch, and the wallets table — in
particular every balance — is untouched. -/
theorem amount_mismatch_never_credits (s : Session) (ref : String) (txn : Transaction)
    (k : Int) (ps : Option String) (vstat : Option String)
    (htx : get_transaction_by_reference s.current ref = some txn)
    (hst : txn.status ≠ .success) (hne : ref ≠ "")
    (hmm : txn.amount ≠ kobo_to_naira k) :
    paystack_webhook s true
        { event := some "charge.success",
          data := { reference := some ref, amount := k, status := ps } }
      = (.amountMismatch,
         Session.ofDB (s.current.updateTxn txn.id fun t =>
           { t with status := .failed,
                    description := some ("Amount mismatch: expected " ++
                      toString txn.amount ++ ", got " ++ toString (kobo_to_naira k)) }))
    ∧ (paystack_webhook s true
        { event := some "charge.success",
          data := { reference := some ref, amount := k, status := ps } }).2.committed.wallets
        = s.current.wallets
    ∧ paystack_callback s ref (some { status := vstat, amount := k })
      = (.amountMismatchPage,
         Session.ofDB (s.current.updateTxn txn.id fun t =>
           { t with status := .failed,
                    description := some ("Amount mismatch: expected " ++
                      toString txn.amount ++ ", got " ++ toString (kobo_to_naira k)) }))
    ∧ (paystack_callback s ref (some { status := vstat, amount := k })).2.committed.wallets
        = s.current.wallets := by
  have hw : paystack_webhook s true
      { event := some "charge.success",
        data := { reference := some ref, amount := k, status := ps } }
      = (.amountMismatch,
         Session.ofDB (s.current.updateTxn txn.id fun t =>
           { t with status := .failed,
                    description := some ("Amount mismatch: expected " ++
                      toString txn.amount ++ ", got " ++ toString (kobo_to_naira k)) })) := by
    simp [paystack_webhook, htx, hst, hne, hmm, Session.commit, Session.ofDB]
  have hc : paystack_callback s ref (some { status := vstat, amount := k })
      = (.amountMismatchPage,
         Session.ofDB (s.current.updateTxn txn.id fun t =>
           { t with status := .failed,
                    description := some ("Amount mismatch: expected " ++
                      toString txn.amount ++ ", got " ++ toString (kobo_to_naira k)) })) := by
    simp [paystack_callback, htx, hst, hmm, Session.commit, Session.ofDB]
  refine ⟨hw, ?_, hc, ?_⟩
  · rw [hw]
    simp [Session.ofDB, DB.updateTxn]
  · rw [hc]
    simp [Session.ofDB, DB.updateTxn]

def c5_txn : Transaction :=
  { id := "t-c5", user_id := "carol", wallet_id := "w-carol", type := .deposit,
    status := .pending, amount := 5000, reference := some "ref-c5",
    recipient_wallet_number := none, description := some "Deposit via Paystack" }

def c5_db : DB :=
  { wallets :=
      [ { id := "w-carol", user_id := "carol", wallet_number := "3333333333333",
          balance := 0, is_active := true } ],
    transactions := [c5_txn], api_keys := [] }

theorem amount_mismatch_never_credits_witness :
    paystack_webhook (Session.ofDB c5_db) true
        { event := some "charge.success",
          data := { reference := some "ref-c5", amount := 400000, status := some "success" } }
      = (.amountMismatch,
         Session.ofDB (c5_db.updateTxn "t-c5" fun t =>
           { t with status := .failed,
                    description := some ("Amount mismatch: expected " ++
                      toString c5_txn.amount ++ ", got " ++ toString (kobo_to_naira 400000)) }))
    ∧ (paystack_webhook (Session.ofDB c5_db) true
        { event := some "charge.success",
          data := { reference := some "ref-c5", amount := 400000, status := some "success" } }).2.committed.wallets
        = c5_db.wallets := by
  have h := amount_mismatch_never_credits (Session.ofDB c5_db) "ref-c5" c5_txn 400000
    (some "success") (some "success") rfl (by decide) (by decide)
    (by norm_num [c5_txn, kobo_to_naira])
  exact ⟨h.1, h.2.1⟩

def c2_wallet : Wallet :=
  { id := "w-carol", user_id := "carol", wallet_number := "3333333333333",
    balance := 0, is_active := true }

def c2_txn : Transaction :=
  { id := "t-c2", user_id := "carol", wallet_id := "w-carol", type := .deposit,
    status := .failed, amount := 5000, reference := some "ref-c2",
    recipient_wallet_number := none, description := some "Deposit via Paystack" }

def c2_db : DB :=
  { wallets := [c2_wallet], transactions := [c2_txn], api_keys := [] }

def c2_payload : WebhookPayload :=
  { event := some "charge.success",
    data := { reference := some "ref-c2", amount := 500000, status := some "success" } }

/-- Claim C2 counterexample: a deposit transaction that has already reached
failed is not treated as terminal.  On this state the transaction for
ref-c2 is failed, yet a charge.success notification with matching amount
credits the wallet with 5000 and flips the transaction to success — the
idempotency gate in the source only short-circuits on SUCCESS. -/
theorem failed_deposit_reconciled_again_counterexample :
    c2_txn.status = .failed
    ∧ (paystack_webhook (Session.ofDB c2_db) true c2_payload).1 = .walletCredited 5000
    ∧ get_wallet_by_user_id
        (paystack_webhook (Session.ofDB c2_db) true c2_payload).2.committed "carol"
        = some { c2_wallet with balance := 5000 }
    ∧ get_transaction_by_reference
        (paystack_webhook (Session.ofDB c2_db) true c2_payload).2.committed "ref-c2"
        = some { c2_txn with status := .success } := by
  refine ⟨rfl, ?_, ?_, ?_⟩ <;>
    · simp [paystack_webhook, c2_db, c2_payload, c2_txn, c2_wallet, Session.ofDB,
        get_transaction_by_reference, get_wallet_by_user_id, kobo_to_naira,
        update_balance, Session.commit, DB.setWalletBalance, DB.updateTxn]
      norm_num

/-- Claim C2 amended: only success is terminal for a deposit transaction.
A transaction already at success makes any further webhook signal a no-op
reporting the final status, but a failed transaction re-enters
reconciliation: a later charge.success notification with matching amount
whose wallet exists credits the wallet and flips the transaction to
success. -/
theorem webhook_failed_state_not_terminal (s : Session) (p : WebhookPayload)
    (ref : String) (txn : Transaction)
    (hev : p.event = some "charge.success")
    (href : p.data.reference = some ref) (hne : ref ≠ "")
    (htx : get_transaction_by_reference s.current ref = some txn) :
    (txn.status = .success → paystack_webhook s true p = (.alreadyProcessed, s))
    ∧ (∀ wallet, txn.status = .failed →
        txn.amount = kobo_to_naira p.data.amount →
        p.data.status = some "success" →
        get_wallet_by_user_id s.current txn.user_id = some wallet →
        paystack_webhook s true p =
          (.walletCredited (kobo_to_naira p.data.amount),
           Session.ofDB ((s.current.setWalletBalance wallet.id
               (wallet.balance + kobo_to_naira p.data.amount)).updateTxn txn.id
             fun t => { t with status := TransactionStatus.success }))) := by
  constructor
  · intro hst
    simp [paystack_webhook, hev, href, hne, htx, hst]
  · intro wallet hst hamt hps hw
    simp [paystack_webhook, hev, href, hne, htx, hst, hamt, hps, hw,
      update_balance, Session.commit, Session.ofDB]

theorem webhook_failed_state_not_terminal_witness :
    paystack_webhook (Session.ofDB c2_db) true c2_payload =
      (.walletCredited (kobo_to_naira c2_payload.data.amount),
       Session.ofDB ((c2_db.setWalletBalance c2_wallet.id
           (c2_wallet.balance + kobo_to_naira c2_payload.data.amount)).updateTxn c2_txn.id
         fun t => { t with status := TransactionStatus.success })) :=
  (webhook_failed_state_not_terminal (Session.ofDB c2_db) c2_payload "ref-c2" c2_txn
    rfl rfl (by decide) rfl).2 c2_wallet rfl
    (by norm_num [c2_txn, c2_payload, kobo_to_naira]) rfl rfl

/-- Claim C3: every failing transfer attempt — any validation error and the
commit-phase failure alike — leaves the committed database exactly as it
was, and an attempt that passes all validation steps fails in the commit
phase and surfaces as an internal error rather than a partial transfer. -/
theorem transfer_failure_full_rollback (s : Session) (sender_id rcpt : String)
    (amount : Rat) (hclean : s.current = s.committed) :
    (∀ e, (transfer_funds s sender_id rcpt amount).1 = .error e →
        (transfer_funds s sender_id rcpt amount).2 = s)
    ∧ (∀ sw rw, get_wallet_by_user_id s.current sender_id = some sw →
        get_wallet_by_wallet_number s.current rcpt = some rw →
        sw.id ≠ rw.id → sw.is_active = true → rw.is_active = true →
        ¬ sw.balance < amount →
        (transfer_funds s sender_id rcpt amount).1 =
          .error (.internalError
            "Transfer failed: create_transaction() got an unexpected keyword argument status")) := by
  obtain ⟨c, cur⟩ := s
  simp only at hclean
  subst hclean
  constructor
  · intro e he
    unfold transfer_funds at he ⊢
    cases h1 : get_wallet_by_user_id cur sender_id with
    | none => simp [h1]
    | some sw =>
      cases h2 : get_wallet_by_wallet_number cur rcpt with
      | none => simp [h1, h2]
      | some rw =>
        simp only [h1, h2] at he ⊢
        split_ifs with hid hsa hra hbal hkw
        · rfl
        · rfl
        · rfl
        · rfl
        · exact absurd hkw (by decide)
        · rfl
  · intro sw rw h1 h2 hid hsa hra hbal
    unfold transfer_funds
    simp [h1, h2, hid, hsa, hra, hbal, unexpected_keyword_args,
      transfer_sender_leg_keywords, create_transaction_params]

def c3_w1 : Wallet :=
  { id := "w-dave", user_id := "dave", wallet_number := "4444444444444",
    balance := 100, is_active := true }

def c3_w2 : Wallet :=
  { id := "w-erin", user_id := "erin", wallet_number := "5555555555555",
    balance := 40, is_active := true }

def c3_db : DB :=
  { wallets := [c3_w1, c3_w2], transactions := [], api_keys := [] }

theorem transfer_failure_full_rollback_witness :
    (transfer_funds (Session.ofDB c3_db) "dave" "5555555555555" 150).2 = Session.ofDB c3_db
    ∧ (transfer_funds (Session.ofDB c3_db) "dave" "5555555555555" 60).1 =
        .error (.internalError
          "Transfer failed: create_transaction() got an unexpected keyword argument status") := by
  constructor
  · exact (transfer_failure_full_rollback (Session.ofDB c3_db) "dave" "5555555555555"
      150 rfl).1 .insufficientBalance
      (by
        simp [transfer_funds, c3_db, c3_w1, c3_w2, Session.ofDB, get_wallet_by_user_id,
          get_wallet_by_wallet_number]
        norm_num)
  · exact (transfer_failure_full_rollback (Session.ofDB c3_db) "dave" "5555555555555"
      60 rfl).2 c3_w1 c3_w2 rfl rfl (by decide) rfl rfl (by norm_num [c3_w1])

/-- Claim C6: create_api_key rejects with the key-limit error and inserts
nothing when the user already has 5 active (not revoked, not expired) keys,
and succeeds — inserting exactly one new key row — whenever the active
count is below 5 and the expiry spec parses. -/
theorem issue_key_active_limit (s : Session) (now : Int) (uid name : String)
    (perms : List String) (expiry pk nid : String) :
    (5 ≤ get_active_key_count s.current uid now →
        create_api_key s now uid name perms expiry pk nid = (.error .keyLimitReached, s))
    ∧ (get_active_key_count s.current uid now < 5 →
        ∀ e, parse_expiry now expiry = .ok e →
          create_api_key s now uid name perms expiry pk nid =
            (.ok ({ id := nid, user_id := uid, name := name, key_pfx := String.mk (pk.data.take 8),
                    key_hash := hash_api_key pk, permissions := perms, expires_at := e,
                    is_active := true, is_revoked := false, last_used_at := none }, pk),
             Session.ofDB { s.current with api_keys := s.current.api_keys ++
               [{ id := nid, user_id := uid, name := name, key_pfx := String.mk (pk.data.take 8),
                  key_hash := hash_api_key pk, permissions := perms, expires_at := e,
                  is_active := true, is_revoked := false, last_used_at := none }] })) := by
  constructor
  · intro h
    simp [create_api_key, h]
  · intro h e he
    have hnot : ¬ 5 ≤ get_active_key_count s.current uid now := by omega
    simp [create_api_key, hnot, he, Session.commit, Session.ofDB]

def c6_key (i suffix : String) : APIKey :=
  { id := i, user_id := "uma", name := "svc", key_pfx := "sk_live_",
    key_hash := "sha256:old-" ++ suffix, permissions := ["read"],
    expires_at := 1000, is_active := true, is_revoked := false, last_used_at := none }

def c6_db : DB :=
  { wallets := [], transactions := [],
    api_keys := [c6_key "k1" "a", c6_key "k2" "b", c6_key "k3" "c",
                 c6_key "k4" "d", c6_key "k5" "e"] }

theorem issue_key_active_limit_witness :
    create_api_key (Session.ofDB c6_db) 0 "uma" "svc" ["read"] "1D" "sk_live_w6secret" "k6"
      = (.error .keyLimitReached, Session.ofDB c6_db)
    ∧ (create_api_key (revoke_api_key (Session.ofDB c6_db) "k1" "uma").2 0 "uma" "svc"
        ["read"] "1D" "sk_live_w6secret" "k6").1
      = .ok ({ id := "k6", user_id := "uma", name := "svc",
               key_pfx := String.mk ("sk_live_w6secret".data.take 8),
               key_hash := hash_api_key "sk_live_w6secret", permissions := ["read"],
               expires_at := 86400, is_active := true, is_revoked := false,
               last_used_at := none }, "sk_live_w6secret") := by
  constructor
  · exact (issue_key_active_limit (Session.ofDB c6_db) 0 "uma" "svc" ["read"]
      "1D" "sk_live_w6secret" "k6").1 (by decide)
  · have h := (issue_key_active_limit ((revoke_api_key (Session.ofDB c6_db) "k1" "uma").2)
      0 "uma" "svc" ["read"] "1D" "sk_live_w6secret" "k6").2 (by decide) 86400 rfl
    rw [h]


/-- Marking one key revoked by id preserves a by-id-and-owner lookup up to
the marking itself: the predicate only reads fields revoke_flags keeps. -/
theorem find?_map_revoke (l : List APIKey) (kid uid : String) (k : APIKey)
    (h : l.find? (fun x => x.id == kid && x.user_id == uid) = some k) :
    (l.map fun x => if x.id == kid then revoke_flags x else x).find?
      (fun x => x.id == kid && x.user_id == uid) = some (revoke_flags k) := by
  induction l with
  | nil => simp at h
  | cons a l ih =>
    by_cases ha : (a.id == kid && a.user_id == uid) = true
    · rw [List.find?_cons_of_pos l ha] at h
      obtain rfl : a = k := by simpa using h
      have haid : (a.id == kid) = true := (Bool.and_eq_true _ _ |>.mp ha).1
      simp only [List.map_cons, haid, if_true]
      exact List.find?_cons_of_pos _ ha
    · rw [List.find?_cons_of_neg l (by simpa using ha)] at h
      have hpa : ((if (a.id == kid) = true then revoke_flags a else a).id == kid &&
          (if (a.id == kid) = true then revoke_flags a else a).user_id == uid) = false := by
        by_cases haid : (a.id == kid) = true
        · simp only [haid, if_true]
          exact Bool.eq_false_iff.mpr (by simpa [revoke_flags] using ha)
        · simp only [haid, if_false]
          exact Bool.eq_false_iff.mpr (by simpa using ha)
      simp only [List.map_cons]
      rw [List.find?_cons]
      simp only [hpa]
      exact ih h

/-- Claim C7: rollover_api_key on an owned key rejects with the not-expired
error and changes nothing when the expiry has not passed; every failing
call leaves the session exactly as it was (no old key revoked without a
replacement); and on an expired key with a well-formed new expiry and room
under the key limit it revokes the old key and issues a new key carrying
the old key permission set unchanged, committing both as one unit. -/
theorem rollover_key_contract (s : Session) (now : Int) (uid kid nexp pk nid : String)
    (hclean : s.current = s.committed) :
    (∀ old_key, get_api_key_by_id s.current kid uid = some old_key →
        ¬ now > old_key.expires_at →
        rollover_api_key s now uid kid nexp pk nid = (.error .keyNotExpired, s))
    ∧ (∀ e', (rollover_api_key s now uid kid nexp pk nid).1 = .error e' →
        (rollover_api_key s now uid kid nexp pk nid).2 = s)
    ∧ (∀ old_key e, get_api_key_by_id s.current kid uid = some old_key →
        now > old_key.expires_at →
        parse_expiry now nexp = .ok e →
        get_active_key_count (s.current.updateKey kid revoke_flags) uid now < 5 →
        rollover_api_key s now uid kid nexp pk nid =
          (.ok ({ id := nid, user_id := uid, name := old_key.name,
                  key_pfx := String.mk (pk.data.take 8), key_hash := hash_api_key pk,
                  permissions := old_key.permissions, expires_at := e,
                  is_active := true, is_revoked := false, last_used_at := none }, pk),
           Session.ofDB { s.current.updateKey kid revoke_flags with api_keys :=
             (s.current.updateKey kid revoke_flags).api_keys ++
               [{ id := nid, user_id := uid, name := old_key.name,
                  key_pfx := String.mk (pk.data.take 8), key_hash := hash_api_key pk,
                  permissions := old_key.permissions, expires_at := e,
                  is_active := true, is_revoked := false, last_used_at := none }] })
        ∧ get_api_key_by_id (rollover_api_key s now uid kid nexp pk nid).2.committed kid uid
            = some (revoke_flags old_key)) := by
  obtain ⟨c, cur⟩ := s
  simp only at hclean
  subst hclean
  refine ⟨?_, ?_, ?_⟩
  · intro old_key hk hexp
    simp [rollover_api_key, hk, hexp]
  · intro e' he'
    unfold rollover_api_key at he' ⊢
    cases hk : get_api_key_by_id cur kid uid with
    | none => simp [hk]
    | some old_key =>
      simp only [hk] at he' ⊢
      by_cases hexp : ¬ now > old_key.expires_at
      · simp [hexp]
      · simp only [if_neg hexp] at he' ⊢
        unfold create_api_key at he' ⊢
        by_cases hcnt : get_active_key_count
            (cur.updateKey old_key.id revoke_flags) uid now ≥ 5
        · simp [hcnt, Session.rollback]
        · cases hpe : parse_expiry now nexp with
          | error e2 => simp [hcnt, hpe, Session.rollback]
          | ok e2 =>
            simp [hcnt, hpe] at he'
  · intro old_key e hk hexp hpe hcnt
    have hid : old_key.id = kid := by
      have hp := List.find?_some hk
      exact eq_of_beq (Bool.and_eq_true _ _ |>.mp hp).1
    have hcnt2 : get_active_key_count (cur.updateKey kid revoke_flags) uid now < 5 := hcnt
    have hn5 : ¬ get_active_key_count (cur.updateKey kid revoke_flags) uid now ≥ 5 := by
      omega
    constructor
    · unfold rollover_api_key create_api_key
      simp only [hk, if_neg (not_not_intro hexp)]
      rw [hid]
      simp [hn5, hpe, Session.commit, Session.ofDB]
    · unfold rollover_api_key create_api_key
      simp only [hk, if_neg (not_not_intro hexp)]
      rw [hid]
      simp only [hn5, if_false, hpe, Session.commit, Session.ofDB]
      unfold get_api_key_by_id at hk ⊢
      simp only [DB.updateKey]
      rw [List.find?_append, find?_map_revoke cur.api_keys kid uid old_key hk]
      rfl

def c7_old_key : APIKey :=
  { id := "k7", user_id := "vic", name := "svc", key_pfx := "sk_live_",
    key_hash := "sha256:old-roll", permissions := ["deposit", "read"],
    expires_at := 10, is_active := true, is_revoked := false, last_used_at := none }

def c7_fresh_key : APIKey :=
  { id := "k9", user_id := "vic", name := "svc2", key_pfx := "sk_live_",
    key_hash := "sha256:fresh", permissions := ["read"],
    expires_at := 100000, is_active := true, is_revoked := false, last_used_at := none }

def c7_db : DB :=
  { wallets := [], transactions := [], api_keys := [c7_old_key, c7_fresh_key] }

theorem rollover_key_contract_witness :
    rollover_api_key (Session.ofDB c7_db) 5 "vic" "k7" "1H" "sk_live_rollsecret" "k8"
      = (.error .keyNotExpired, Session.ofDB c7_db)
    ∧ rollover_api_key (Session.ofDB c7_db) 100 "vic" "k7" "1H" "sk_live_rollsecret" "k8"
        = (.ok ({ id := "k8", user_id := "vic", name := "svc",
                  key_pfx := String.mk ("sk_live_rollsecret".data.take 8),
                  key_hash := hash_api_key "sk_live_rollsecret",
                  permissions := ["deposit", "read"], expires_at := 3700,
                  is_active := true, is_revoked := false, last_used_at := none },
                "sk_live_rollsecret"),
           Session.ofDB { c7_db.updateKey "k7" revoke_flags with api_keys :=
             (c7_db.updateKey "k7" revoke_flags).api_keys ++
               [{ id := "k8", user_id := "vic", name := "svc",
                  key_pfx := String.mk ("sk_live_rollsecret".data.take 8),
                  key_hash := hash_api_key "sk_live_rollsecret",
                  permissions := ["deposit", "read"], expires_at := 3700,
                  is_active := true, is_revoked := false, last_used_at := none }] })
    ∧ get_api_key_by_id
        (rollover_api_key (Session.ofDB c7_db) 100 "vic" "k7" "1H"
          "sk_live_rollsecret" "k8").2.committed "k7" "vic"
        = some (revoke_flags c7_old_key) := by
  refine ⟨?_, ?_, ?_⟩
  · exact (rollover_key_contract (Session.ofDB c7_db) 5 "vic" "k7" "1H"
      "sk_live_rollsecret" "k8" rfl).1 c7_old_key rfl (by decide)
  · exact ((rollover_key_contract (Session.ofDB c7_db) 100 "vic" "k7" "1H"
      "sk_live_rollsecret" "k8" rfl).2.2 c7_old_key 3700 rfl (by decide) rfl (by decide)).1
  · exact ((rollover_key_contract (Session.ofDB c7_db) 100 "vic" "k7" "1H"
      "sk_live_rollsecret" "k8" rfl).2.2 c7_old_key 3700 rfl (by decide) rfl (by decide)).2

/-- Lookup by a hash no stored key carries passes through to the appended
rows. -/
theorem find?_append_of_none {α} (p : α → Bool) (l₁ l₂ : List α)
    (h : l₁.find? p = none) : (l₁ ++ l₂).find? p = l₂.find? p := by
  simp [List.find?_append, h]

/-- Claim C10: the expiry validator and create_api_key both accept specs
with zero or negative magnitude such as 0H and -1D; creation then succeeds
and returns the plaintext secret, but the stored expires_at is the creation
instant (for 0H) or a day before it (for -1D), so the key is expired on
issue and verify_api_key rejects it at every strictly later instant (for
-1D even at the creation instant itself). -/
theorem zero_or_negative_expiry_key_born_expired (s : Session) (now : Int)
    (uid name : String) (perms : List String) (pk nid : String)
    (hcnt : get_active_key_count s.current uid now < 5)
    (hfresh : s.current.api_keys.find? (fun k => k.key_hash == hash_api_key pk) = none) :
    validate_expiry "0H" = .ok "0H"
    ∧ validate_expiry "-1D" = .ok "-1D"
    ∧ create_api_key s now uid name perms "0H" pk nid
        = (.ok ({ id := nid, user_id := uid, name := name,
                  key_pfx := String.mk (pk.data.take 8), key_hash := hash_api_key pk,
                  permissions := perms, expires_at := now,
                  is_active := true, is_revoked := false, last_used_at := none }, pk),
           Session.ofDB { s.current with api_keys := s.current.api_keys ++
             [{ id := nid, user_id := uid, name := name,
                key_pfx := String.mk (pk.data.take 8), key_hash := hash_api_key pk,
                permissions := perms, expires_at := now,
                is_active := true, is_revoked := false, last_used_at := none }] })
    ∧ (∀ t, now < t →
        (verify_api_key (create_api_key s now uid name perms "0H" pk nid).2 t pk).1 = none)
    ∧ (create_api_key s now uid name perms "-1D" pk nid).1
        = .ok ({ id := nid, user_id := uid, name := name,
                 key_pfx := String.mk (pk.data.take 8), key_hash := hash_api_key pk,
                 permissions := perms, expires_at := now - 86400,
                 is_active := true, is_revoked := false, last_used_at := none }, pk)
    ∧ (∀ t, now ≤ t →
        (verify_api_key (create_api_key s now uid name perms "-1D" pk nid).2 t pk).1 = none) := by
  have hn5 : ¬ get_active_key_count s.current uid now ≥ 5 := by omega
  have hpe0 : parse_expiry now "0H" = Except.ok (now + 3600 * 0) := rfl
  have hpe1 : parse_expiry now "-1D" = Except.ok (now + 86400 * (-1)) := rfl
  have hc0 : create_api_key s now uid name perms "0H" pk nid
      = (.ok ({ id := nid, user_id := uid, name := name,
                key_pfx := String.mk (pk.data.take 8), key_hash := hash_api_key pk,
                permissions := perms, expires_at := now,
                is_active := true, is_revoked := false, last_used_at := none }, pk),
         Session.ofDB { s.current with api_keys := s.current.api_keys ++
           [{ id := nid, user_id := uid, name := name,
              key_pfx := String.mk (pk.data.take 8), key_hash := hash_api_key pk,
              permissions := perms, expires_at := now,
              is_active := true, is_revoked := false, last_used_at := none }] }) := by
    simp [create_api_key, hn5, hpe0, Session.commit, Session.ofDB]
  have hc1 : create_api_key s now uid name perms "-1D" pk nid
      = (.ok ({ id := nid, user_id := uid, name := name,
                key_pfx := String.mk (pk.data.take 8), key_hash := hash_api_key pk,
                permissions := perms, expires_at := now - 86400,
                is_active := true, is_revoked := false, last_used_at := none }, pk),
         Session.ofDB { s.current with api_keys := s.current.api_keys ++
           [{ id := nid, user_id := uid, name := name,
              key_pfx := String.mk (pk.data.take 8), key_hash := hash_api_key pk,
              permissions := perms, expires_at := now - 86400,
              is_active := true, is_revoked := false, last_used_at := none }] }) := by
    simp [create_api_key, hn5, hpe1, Session.commit, Session.ofDB]
    constructor
  refine ⟨rfl, rfl, hc0, ?_, by rw [hc1], ?_⟩
  · intro t ht
    rw [hc0]
    unfold verify_api_key
    simp only [Session.ofDB]
    rw [find?_append_of_none _ _ _ hfresh]
    have hexp : t > now := ht
    simp [List.find?_cons, hexp]
  · intro t ht
    rw [hc1]
    unfold verify_api_key
    simp only [Session.ofDB]
    rw [find?_append_of_none _ _ _ hfresh]
    have hexp : t > now - 86400 := by omega
    simp [List.find?_cons, hexp]

def c10_db : DB :=
  { wallets := [], transactions := [], api_keys := [] }

theorem zero_or_negative_expiry_key_born_expired_witness :
    (verify_api_key
      (create_api_key (Session.ofDB c10_db) 0 "uma" "svc" ["read"] "0H"
        "sk_live_x10" "k10").2 1 "sk_live_x10").1 = none
    ∧ (verify_api_key
      (create_api_key (Session.ofDB c10_db) 0 "uma" "svc" ["read"] "-1D"
        "sk_live_x10" "k10").2 0 "sk_live_x10").1 = none
    ∧ (create_api_key (Session.ofDB c10_db) 0 "uma" "svc" ["read"] "-1D"
        "sk_live_x10" "k10").1
      = .ok ({ id := "k10", user_id := "uma", name := "svc",
               key_pfx := String.mk ("sk_live_x10".data.take 8),
               key_hash := hash_api_key "sk_live_x10", permissions := ["read"],
               expires_at := 0 - 86400, is_active := true, is_revoked := false,
               last_used_at := none }, "sk_live_x10") := by
  have h := zero_or_negative_expiry_key_born_expired (Session.ofDB c10_db) 0 "uma" "svc"
    ["read"] "sk_live_x10" "k10" (by decide) rfl
  exact ⟨h.2.2.2.1 1 (by decide), h.2.2.2.2.2 0 (by decide), h.2.2.2.2.1⟩
